import Mathlib

/-!
Verification of the voice-call streaming core of `clawdbot777/openclaw`.

The development shallowly embeds the state-carrying parts of the
TypeScript sources:

* `DeepgramSTTSessionImpl` (streaming recognition session):
  `handleMessage`, `sendAudio`, `flushAudioBuffer`, `attemptReconnect`,
  and the websocket `open`/`close` handlers installed by `connect`.
* `DeepgramVoiceAgentProvider` (unified agent connection):
  its reconnection delay computation and the trivial `injectText`/`speak`
  methods.
* `setupAgentEventHandlers` in `media-stream-agent.ts` (per-call stream
  session handling of agent events, including barge-in buffer clearing).

JavaScript strings are modelled as `List Char`, byte buffers as
`List Nat`.  Console logging is modelled explicitly (as lists of tagged
log entries) so that "logged to the console" can be distinguished from
"reported upward to the owner through a callback".
-/

/-- Model of JavaScript `String.prototype.trim`: strip leading and
trailing whitespace (the exact whitespace class differs marginally from
JS, which is irrelevant for the transcripts considered here). -/
def jsTrim (s : List Char) : List Char :=
  ((s.dropWhile Char.isWhitespace).reverse.dropWhile Char.isWhitespace).reverse

/-- One alternative inside a Deepgram `Results` message
(`message.channel.alternatives[i]`); only the transcript text is read
by the session. -/
structure DgAlt where
  transcript : List Char
deriving DecidableEq, Repr

/-- Backend messages consumed by `DeepgramSTTSessionImpl.handleMessage`
(the `message.type` dispatch): `Results` carries the alternatives list
and the `is_final` / `speech_final` flags; `UtteranceEnd`,
`SpeechStarted`, `Metadata` and `Error` carry nothing the handler
reads. -/
inductive DgMsg where
  | results (alternatives : List DgAlt) (isFinal speechFinal : Bool)
  | utteranceEnd
  | speechStarted
  | metadata
  | errorMsg
deriving DecidableEq, Repr

/-- Events the streaming recognition session surfaces to its owner:
the `onTranscript`, `onPartial` and `onSpeechStart` callbacks.  The
`fatalError` constructor is the vocabulary needed to state the spec's
"reports a fatal error upward"; the session interface has no error
callback, so the embedded code never emits it. -/
inductive OwnerEvent where
  | transcript (t : List Char)
  | interim (t : List Char)
  | speechStart
  | fatalError
deriving DecidableEq, Repr

/-- The utterance-accumulator fields of `DeepgramSTTSessionImpl`:
`currentTranscript` and `currentUtteranceFired`. -/
structure SttState where
  currentTranscript : List Char
  currentUtteranceFired : Bool
deriving DecidableEq, Repr

/-- Embedding of `DeepgramSTTSessionImpl.handleMessage` (part_001 lines
204-266).  `interimResults` is the session's constructor flag.  Returns
the updated accumulator state and the owner-visible events fired, in
order (`fireTranscript` is modelled as the single `OwnerEvent.transcript`
it delivers). -/
def handleMessage (interimResults : Bool) (s : SttState) (m : DgMsg) :
    SttState × List OwnerEvent :=
  match m with
  | DgMsg.results alternatives isFinal speechFinal =>
    -- const channel = message.channel?.alternatives?.[0]; if (!channel) return;
    match alternatives.head? with
    | none => (s, [])
    | some channel =>
      -- const transcript = channel.transcript?.trim(); if (!transcript) return;
      let transcript := jsTrim channel.transcript
      if transcript = [] then (s, [])
      else
        -- if (transcript) this.currentTranscript = transcript;
        let s1 : SttState := { s with currentTranscript := transcript }
        if isFinal && speechFinal then
          if !s1.currentUtteranceFired then
            -- fireTranscript(currentTranscript); fired := true; transcript := ""
            ({ currentTranscript := [], currentUtteranceFired := true },
             [OwnerEvent.transcript s1.currentTranscript])
          else
            ({ s1 with currentTranscript := [] }, [])
        else if interimResults && !isFinal then
          (s1, [OwnerEvent.interim transcript])
        else
          (s1, [])
  | DgMsg.utteranceEnd =>
    let fired :=
      if s.currentTranscript.length > 0 && !s.currentUtteranceFired then
        [OwnerEvent.transcript s.currentTranscript]
      else []
    ({ currentTranscript := [], currentUtteranceFired := false }, fired)
  | DgMsg.speechStarted =>
    ({ s with currentUtteranceFired := false }, [OwnerEvent.speechStart])
  | DgMsg.metadata => (s, [])
  | DgMsg.errorMsg => (s, [])

/-- Run `handleMessage` over a message sequence, concatenating the
owner-visible events in order. -/
def runMessages (interimResults : Bool) (s : SttState) :
    List DgMsg → SttState × List OwnerEvent
  | [] => (s, [])
  | m :: ms =>
    let r1 := handleMessage interimResults s m
    let r2 := runMessages interimResults r1.1 ms
    (r2.1, r1.2 ++ r2.2)

/-- Number of final-transcript events (`fireTranscript` deliveries) in
an event list. -/
def countFired (evs : List OwnerEvent) : Nat :=
  (evs.filter fun e =>
    match e with
    | OwnerEvent.transcript _ => true
    | _ => false).length

/-- C1: starting at any utterance-accumulator state whose already-fired
flag is unset (the state at the start of an utterance), a `Results`
message marked both `is_final` and `speech_final` with a non-empty
(after trimming) transcript, followed immediately by an `UtteranceEnd`
message, fires exactly one final-transcript event: the `Results` branch
fires and sets the flag, and the `UtteranceEnd` branch is inert because
the accumulator was cleared. -/
theorem stt_final_then_utteranceEnd_fires_once
    (interimResults : Bool) (s : SttState) (t : List Char)
    (hf : s.currentUtteranceFired = false) (ht : jsTrim t ≠ []) :
    countFired (runMessages interimResults s
      [DgMsg.results [⟨t⟩] true true, DgMsg.utteranceEnd]).2 = 1 := by
  simp [runMessages, handleMessage, hf, ht, countFired]

/-- Witness for C1 at a concrete input. -/
theorem stt_final_then_utteranceEnd_fires_once_witness :
    (SttState.mk [] false).currentUtteranceFired = false ∧
    jsTrim ['h', 'i'] ≠ [] ∧
    countFired (runMessages true (SttState.mk [] false)
      [DgMsg.results [⟨['h', 'i']⟩] true true, DgMsg.utteranceEnd]).2 = 1 :=
  ⟨rfl, by decide,
   stt_final_then_utteranceEnd_fires_once true (SttState.mk [] false)
     ['h', 'i'] rfl (by decide)⟩

/-- C5 counterexample: an `UtteranceEnd` message — which is not
`SpeechStarted` — changes the already-fired flag from set to unset
(part_001 line 247 executes `this.currentUtteranceFired = false`
unconditionally). -/
theorem stt_flag_reset_only_by_speechStarted_counterexample :
    (handleMessage true (SttState.mk [] true) DgMsg.utteranceEnd).1.currentUtteranceFired
      = false ∧
    DgMsg.utteranceEnd ≠ DgMsg.speechStarted := by
  refine ⟨rfl, ?_⟩
  intro h
  exact DgMsg.noConfusion h

/-- C5 amended: the already-fired flag is changed from set to unset only
by a `SpeechStarted` or an `UtteranceEnd` message; no `Results`,
`Metadata` or `Error` message unsets it. -/
theorem stt_flag_reset_only_by_speechStarted_or_utteranceEnd
    (interimResults : Bool) (s : SttState) (m : DgMsg)
    (hset : s.currentUtteranceFired = true)
    (hunset : (handleMessage interimResults s m).1.currentUtteranceFired = false) :
    m = DgMsg.utteranceEnd ∨ m = DgMsg.speechStarted := by
  cases m with
  | results alternatives isFinal speechFinal =>
    exfalso
    cases alternatives with
    | nil => simp [handleMessage] at hunset; simp [hunset] at hset
    | cons a rest =>
      by_cases h0 : jsTrim a.transcript = []
      · simp [handleMessage, h0] at hunset; simp [hunset] at hset
      · by_cases h1 : isFinal && speechFinal
        · simp [handleMessage, h0, h1, hset] at hunset
        · by_cases h2 : interimResults && !isFinal
          · simp [handleMessage, h0, h1, h2] at hunset; simp [hunset] at hset
          · simp [handleMessage, h0, h1, h2] at hunset; simp [hunset] at hset
  | utteranceEnd => exact Or.inl rfl
  | speechStarted => exact Or.inr rfl
  | metadata => exfalso; simp [handleMessage] at hunset; simp [hunset] at hset
  | errorMsg => exfalso; simp [handleMessage] at hunset; simp [hunset] at hset

/-- Witness for the amended C5 at a concrete input. -/
theorem stt_flag_reset_only_by_speechStarted_or_utteranceEnd_witness :
    DgMsg.utteranceEnd = DgMsg.utteranceEnd ∨ DgMsg.utteranceEnd = DgMsg.speechStarted :=
  stt_flag_reset_only_by_speechStarted_or_utteranceEnd true
    (SttState.mk [] true) DgMsg.utteranceEnd rfl rfl

/-- C9: an `UtteranceEnd` message processed in a state with empty
accumulated transcript fires no events (and the handler is a total
function, so no error is raised); and from any state, after processing
`UtteranceEnd` the accumulated transcript is empty and the already-fired
flag is unset. -/
theorem stt_utteranceEnd_empty_and_reset
    (interimResults : Bool) (s : SttState) :
    (s.currentTranscript = [] →
        (handleMessage interimResults s DgMsg.utteranceEnd).2 = []) ∧
    (handleMessage interimResults s DgMsg.utteranceEnd).1.currentTranscript = [] ∧
    (handleMessage interimResults s DgMsg.utteranceEnd).1.currentUtteranceFired = false := by
  refine ⟨?_, rfl, rfl⟩
  intro h
  simp [handleMessage, h]

/-- Witness for C9 at a concrete input. -/
theorem stt_utteranceEnd_empty_and_reset_witness :
    (handleMessage true (SttState.mk [] false) DgMsg.utteranceEnd).2 = [] ∧
    (handleMessage true (SttState.mk [] false) DgMsg.utteranceEnd).1.currentTranscript = [] ∧
    (handleMessage true (SttState.mk [] false) DgMsg.utteranceEnd).1.currentUtteranceFired
      = false :=
  ⟨(stt_utteranceEnd_empty_and_reset true (SttState.mk [] false)).1 rfl,
   (stt_utteranceEnd_empty_and_reset true (SttState.mk [] false)).2⟩

/-- C10: a `Results` message whose best alternative's transcript trims
to empty is ignored entirely — whatever the `is_final`/`speech_final`
flags, the state (accumulator and flag) is unchanged and no event (final
or interim) is emitted. -/
theorem stt_blank_results_ignored
    (interimResults : Bool) (s : SttState) (t : List Char) (isFinal speechFinal : Bool)
    (ht : jsTrim t = []) :
    handleMessage interimResults s (DgMsg.results [⟨t⟩] isFinal speechFinal) = (s, []) := by
  simp [handleMessage, ht]

/-- Witness for C10 at a concrete input: a whitespace-only transcript
arriving marked final+speech-final over a non-empty accumulator. -/
theorem stt_blank_results_ignored_witness :
    jsTrim [' '] = [] ∧
    handleMessage true (SttState.mk ['h', 'i'] false)
      (DgMsg.results [⟨[' ']⟩] true true) = (SttState.mk ['h', 'i'] false, []) :=
  ⟨by decide,
   stt_blank_results_ignored true (SttState.mk ['h', 'i'] false) [' '] true true
     (by decide)⟩

/-- `DeepgramSTTSessionImpl.MAX_RECONNECT_ATTEMPTS` (part_001 line 103);
`DeepgramVoiceAgentProvider.maxReconnectAttempts` has the same value. -/
def maxReconnectAttempts : Nat := 5

/-- Delay computed by `DeepgramSTTSessionImpl.attemptReconnect` for
attempt number `attempt` (the post-increment counter value, part_001
line 343): `Math.min(1000 * 2 ** (attempt - 1), 10000)`. -/
def sttReconnectDelay (attempt : Nat) : Nat :=
  min (1000 * 2 ^ (attempt - 1)) 10000

/-- Delay computed by `DeepgramVoiceAgentProvider.attemptReconnect` for
attempt number `attempt` (the post-increment counter value,
deepgram-agent.ts line 194): `Math.min(1000 * 2 ** attempt, 30000)`. -/
def agentReconnectDelay (attempt : Nat) : Nat :=
  min (1000 * 2 ^ attempt) 30000

/-- C2 counterexample: the claimed delay sequence 1000, 2000, 4000,
8000, 16000 holds in neither implementation — the streaming session
caps at 10000 ms (attempt 5 waits 10000, not 16000) and the agent
connection starts at 2000 ms (attempt 1 waits 2000, not 1000; attempt 5
waits 30000, not 16000). -/
theorem reconnectDelay_claimed_sequence_false :
    sttReconnectDelay 5 ≠ 16000 ∧
    agentReconnectDelay 1 ≠ 1000 ∧
    agentReconnectDelay 5 ≠ 16000 := by
  decide

/-- C2 amended: the streaming recognition session waits
`min(1000·2^(n-1), 10000)` ms before attempt `n`, i.e. 1000, 2000,
4000, 8000, 10000 for attempts 1..5 (cap 10000 ms); the unified agent
connection waits `min(1000·2^n, 30000)` ms, i.e. 2000, 4000, 8000,
16000, 30000 for attempts 1..5 (cap 30000 ms). -/
theorem reconnectDelay_sequences :
    sttReconnectDelay 1 = 1000 ∧ sttReconnectDelay 2 = 2000 ∧
    sttReconnectDelay 3 = 4000 ∧ sttReconnectDelay 4 = 8000 ∧
    sttReconnectDelay 5 = 10000 ∧
    agentReconnectDelay 1 = 2000 ∧ agentReconnectDelay 2 = 4000 ∧
    agentReconnectDelay 3 = 8000 ∧ agentReconnectDelay 4 = 16000 ∧
    agentReconnectDelay 5 = 30000 := by
  decide

/-- Connection-level flags of `DeepgramSTTSessionImpl` relevant to
reconnection: `closed`, `explicitClose`, `reconnecting`,
`reconnectAttempts`, `connected`. -/
structure RState where
  closed : Bool
  explicitClose : Bool
  reconnecting : Bool
  reconnectAttempts : Nat
  connected : Bool
deriving DecidableEq, Repr

/-- Outcome of one `connect()` call awaited inside `attemptReconnect`:
the promise resolves when the websocket `open` event fires (part_001
lines 155-160), and rejects when an `error` event arrives while not yet
connected (lines 171-176). -/
inductive ConnectOutcome where
  | opens
  | failsBeforeOpen
deriving DecidableEq, Repr

/-- Console log entries produced by `attemptReconnect` (console output
only; none of these reach the session's owner). -/
inductive RLog where
  | maxReconnectReached
  | reconnectingIn (attempt delayMs : Nat)
  | reconnectionSuccessful
  | reconnectionFailed
deriving DecidableEq, Repr

/-- Result of one `attemptReconnect` invocation: the new flag state,
the console log entries, the events surfaced to the session's owner
through callbacks, and whether the method re-invokes itself
(`void this.attemptReconnect()` in the catch branch). -/
structure ReconnectResult where
  state : RState
  logs : List RLog
  ownerEvents : List OwnerEvent
  retriesAgain : Bool
deriving DecidableEq, Repr

/-- Embedding of `DeepgramSTTSessionImpl.attemptReconnect` (part_001
lines 328-361), one invocation, parameterised by the outcome of the
awaited `connect()`.  When `connect()` resolves — which happens as soon
as the websocket `open` event fires and `connected` is set — the
attempt counter is reset to zero (line 354).  On exceeding the maximum
attempt count the session sets `closed` and returns, logging to the
console but surfacing nothing to the owner. -/
def attemptReconnectStep (st : RState) (outcome : ConnectOutcome) : ReconnectResult :=
  if st.closed || st.explicitClose || st.reconnecting then
    ⟨st, [], [], false⟩
  else
    let s1 : RState := { st with reconnecting := true }
    if s1.reconnectAttempts ≥ maxReconnectAttempts then
      ⟨{ s1 with closed := true, reconnecting := false },
       [RLog.maxReconnectReached], [], false⟩
    else
      let s2 : RState := { s1 with reconnectAttempts := s1.reconnectAttempts + 1 }
      let delay := sttReconnectDelay s2.reconnectAttempts
      match outcome with
      | ConnectOutcome.opens =>
        ⟨{ s2 with connected := true, reconnectAttempts := 0, reconnecting := false },
         [RLog.reconnectingIn s2.reconnectAttempts delay, RLog.reconnectionSuccessful],
         [], false⟩
      | ConnectOutcome.failsBeforeOpen =>
        ⟨{ s2 with reconnecting := false },
         [RLog.reconnectingIn s2.reconnectAttempts delay, RLog.reconnectionFailed],
         [], true⟩

/-- Embedding of the websocket `close` handler installed by `connect`
(part_001 lines 178-186): clears `connected`; schedules a reconnect
(returned boolean) unless the close was explicit or the session is
already closed, in which case it marks the session closed. -/
def onWsClose (st : RState) : RState × Bool :=
  let s1 : RState := { st with connected := false }
  if !s1.explicitClose && !s1.closed then (s1, true)
  else ({ s1 with closed := true }, false)

/-- The scenario of claim C3: a reconnect attempt whose `connect()`
resolves at socket open, after which the connection immediately errors:
the `error` handler only logs once `connected` is set (part_001 lines
171-176), and the ensuing `close` event clears `connected`.  The
attempt counter was already reset to zero when `connect()` resolved. -/
def opensThenErrors (st : RState) : RState :=
  ((onWsClose (attemptReconnectStep st ConnectOutcome.opens).state)).1

/-- C3 counterexample: from a state with 2 accumulated reconnect
attempts, a connection that opens and then immediately errors — with no
readiness acknowledgment of any kind in between — leaves the attempt
counter reset to 0: the reset happens at socket establishment, because
`connect()` resolves inside the websocket `open` handler. -/
theorem reconnect_counter_reset_on_open_counterexample :
    (opensThenErrors (RState.mk false false false 2 false)).reconnectAttempts = 0 ∧
    (RState.mk false false false 2 false).reconnectAttempts = 2 := by
  decide

/-- C3 amended: the attempt counter is reset to zero whenever the
awaited `connect()` resolves, which happens at socket establishment
(the `open` event); in particular a connection that opens and then
immediately errors still has its counter reset to zero. -/
theorem reconnect_counter_resets_on_socket_open
    (st : RState)
    (hc : st.closed = false) (he : st.explicitClose = false)
    (hr : st.reconnecting = false) (ha : st.reconnectAttempts < maxReconnectAttempts) :
    (attemptReconnectStep st ConnectOutcome.opens).state.reconnectAttempts = 0 ∧
    (opensThenErrors st).reconnectAttempts = 0 := by
  have hlt : ¬ (st.reconnectAttempts ≥ maxReconnectAttempts) := Nat.not_le.mpr ha
  constructor
  · simp [attemptReconnectStep, hc, he, hr, hlt]
  · simp [opensThenErrors, attemptReconnectStep, onWsClose, hc, he, hr, hlt]

/-- Witness for the amended C3 at a concrete input. -/
theorem reconnect_counter_resets_on_socket_open_witness :
    (attemptReconnectStep (RState.mk false false false 2 false)
        ConnectOutcome.opens).state.reconnectAttempts = 0 ∧
    (opensThenErrors (RState.mk false false false 2 false)).reconnectAttempts = 0 :=
  reconnect_counter_resets_on_socket_open (RState.mk false false false 2 false)
    rfl rfl rfl (by decide)

/-- C6 counterexample: when the attempt counter has reached the maximum
(5), `attemptReconnect` closes the session but surfaces nothing to the
owner — the owner-visible event list is empty, so in particular no
fatal-error report is delivered upward; the only output is a console
log. -/
theorem reconnect_max_attempts_no_upward_error_counterexample :
    (attemptReconnectStep (RState.mk false false false 5 false)
        ConnectOutcome.opens).state.closed = true ∧
    (attemptReconnectStep (RState.mk false false false 5 false)
        ConnectOutcome.opens).ownerEvents = [] ∧
    OwnerEvent.fatalError ∉
      (attemptReconnectStep (RState.mk false false false 5 false)
        ConnectOutcome.opens).ownerEvents := by
  decide

/-- A closed session ignores `attemptReconnect` entirely: the guard at
part_001 line 329 returns before any state change, log, or retry. -/
theorem attemptReconnectStep_of_closed (s : RState) (o : ConnectOutcome)
    (h : s.closed = true) : attemptReconnectStep s o = ⟨s, [], [], false⟩ := by
  simp [attemptReconnectStep, h]

/-- A websocket `close` event on a closed session schedules no
reconnect. -/
theorem onWsClose_of_closed (s : RState) (h : s.closed = true) :
    (onWsClose s).2 = false := by
  simp [onWsClose, h]

/-- C6 amended: on exceeding the maximum reconnect attempt count the
session becomes permanently closed — the invocation sets `closed`,
schedules no retry, and every later `attemptReconnect` invocation and
websocket `close` event leaves the closed state unchanged and schedules
nothing — and it only logs the exhaustion to the console: no fatal
error is reported upward to the owner (the session has no error
callback). -/
theorem reconnect_max_attempts_closes_permanently
    (st : RState) (outcome : ConnectOutcome)
    (hc : st.closed = false) (he : st.explicitClose = false)
    (hr : st.reconnecting = false) (ha : st.reconnectAttempts ≥ maxReconnectAttempts) :
    (attemptReconnectStep st outcome).state.closed = true ∧
    (attemptReconnectStep st outcome).retriesAgain = false ∧
    (attemptReconnectStep st outcome).ownerEvents = [] ∧
    (attemptReconnectStep st outcome).logs = [RLog.maxReconnectReached] ∧
    (∀ o2 : ConnectOutcome,
      attemptReconnectStep (attemptReconnectStep st outcome).state o2 =
        ⟨(attemptReconnectStep st outcome).state, [], [], false⟩) ∧
    (onWsClose (attemptReconnectStep st outcome).state).2 = false := by
  have h1 : (attemptReconnectStep st outcome).state.closed = true := by
    simp [attemptReconnectStep, hc, he, hr, ha]
  refine ⟨h1, ?_, ?_, ?_, ?_, ?_⟩
  · simp [attemptReconnectStep, hc, he, hr, ha]
  · simp [attemptReconnectStep, hc, he, hr, ha]
  · simp [attemptReconnectStep, hc, he, hr, ha]
  · intro o2
    exact attemptReconnectStep_of_closed _ o2 h1
  · exact onWsClose_of_closed _ h1

/-- Witness for the amended C6 at a concrete input. -/
theorem reconnect_max_attempts_closes_permanently_witness :
    (attemptReconnectStep (RState.mk false false false 5 false)
        ConnectOutcome.failsBeforeOpen).state.closed = true ∧
    (attemptReconnectStep (RState.mk false false false 5 false)
        ConnectOutcome.failsBeforeOpen).retriesAgain = false ∧
    (attemptReconnectStep (RState.mk false false false 5 false)
        ConnectOutcome.failsBeforeOpen).ownerEvents = [] ∧
    (attemptReconnectStep (RState.mk false false false 5 false)
        ConnectOutcome.failsBeforeOpen).logs = [RLog.maxReconnectReached] ∧
    (∀ o2 : ConnectOutcome,
      attemptReconnectStep
        (attemptReconnectStep (RState.mk false false false 5 false)
          ConnectOutcome.failsBeforeOpen).state o2 =
        ⟨(attemptReconnectStep (RState.mk false false false 5 false)
            ConnectOutcome.failsBeforeOpen).state, [], [], false⟩) ∧
    (onWsClose (attemptReconnectStep (RState.mk false false false 5 false)
        ConnectOutcome.failsBeforeOpen).state).2 = false :=
  reconnect_max_attempts_closes_permanently (RState.mk false false false 5 false)
    ConnectOutcome.failsBeforeOpen rfl rfl rfl (by decide)

/-- The pending-audio push of `DeepgramSTTSessionImpl.sendAudio`
(part_001 lines 281-285): append, then drop the oldest packet if the
buffer now exceeds 100 entries. -/
def pushBounded {α : Type} (b : List α) (a : α) : List α :=
  if (b ++ [a]).length > 100 then (b ++ [a]).tail else b ++ [a]

/-- The audio-path fields of `DeepgramSTTSessionImpl`: whether `ws` is
null, the `connected` flag, the pending `audioBuffer`, and the sequence
of packets delivered to the websocket (`ws.send`), in order. -/
structure AudioState (α : Type) where
  wsNull : Bool
  connected : Bool
  audioBuffer : List α
  sentToWs : List α
deriving DecidableEq, Repr

/-- Embedding of `DeepgramSTTSessionImpl.sendAudio` (part_001 lines
278-291): while `ws` is null or not connected, the packet is buffered
(bounded, drop-oldest); otherwise it is sent directly. -/
def sendAudio {α : Type} (s : AudioState α) (a : α) : AudioState α :=
  if s.wsNull || !s.connected then
    { s with audioBuffer := pushBounded s.audioBuffer a }
  else
    { s with sentToWs := s.sentToWs ++ [a] }

/-- Embedding of `DeepgramSTTSessionImpl.flushAudioBuffer` (part_001
lines 268-276): when connected with a non-empty buffer, every buffered
packet is sent in order and the buffer is cleared. -/
def flushAudioBuffer {α : Type} (s : AudioState α) : AudioState α :=
  if s.audioBuffer.length > 0 && (!s.wsNull && s.connected) then
    { s with sentToWs := s.sentToWs ++ s.audioBuffer, audioBuffer := [] }
  else s

/-- The websocket `open` handler installed by `connect` (part_001 lines
155-160), together with the `ws` assignment made just before: the
socket exists, `connected` is set, and the pending buffer is flushed. -/
def onWsOpen {α : Type} (s : AudioState α) : AudioState α :=
  flushAudioBuffer { s with wsNull := false, connected := true }

/-- Audio-path state of a freshly created session: no socket, not
connected, empty buffer, nothing sent. -/
def initialAudioState (α : Type) : AudioState α :=
  AudioState.mk true false [] []

/-- While disconnected, `sendAudio` only feeds `pushBounded`: folding it
over a frame list keeps the connection fields and the sent list
untouched. -/
theorem foldl_sendAudio_disconnected {α : Type} (frames : List α) (b sent : List α) :
    List.foldl sendAudio (AudioState.mk true false b sent) frames
      = AudioState.mk true false (List.foldl pushBounded b frames) sent := by
  induction frames generalizing b with
  | nil => rfl
  | cons a fs ih =>
    rw [List.foldl_cons, List.foldl_cons]
    exact ih (pushBounded b a)

/-- Folding the bounded push over a frame list retains exactly the last
`100` elements of the concatenation, in order. -/
theorem foldl_pushBounded_drop {α : Type} (frames : List α) (b : List α)
    (hb : b.length ≤ 100) :
    List.foldl pushBounded b frames
      = (b ++ frames).drop (b.length + frames.length - 100) := by
  induction frames generalizing b with
  | nil =>
    simp only [List.foldl_nil, List.append_nil, List.length_nil, Nat.add_zero]
    rw [Nat.sub_eq_zero_of_le hb, List.drop_zero]
  | cons a fs ih =>
    rw [List.foldl_cons]
    by_cases h : b.length = 100
    · have hb0 : b ≠ [] := by
        intro hnil
        rw [hnil] at h
        simp at h
      obtain ⟨hd, tl, rfl⟩ : ∃ hd tl, b = hd :: tl := by
        cases b with
        | nil => exact absurd rfl hb0
        | cons x xs => exact ⟨x, xs, rfl⟩
      have htl : tl.length = 99 := by
        simp at h
        omega
      have hpb : pushBounded (hd :: tl) a = tl ++ [a] := by
        simp [pushBounded, htl]
      rw [hpb, ih (tl ++ [a]) (by simp [htl])]
      have hidx : (tl ++ [a]).length + fs.length - 100 = fs.length := by
        simp [htl]
      have hidx2 : (hd :: tl).length + (a :: fs).length - 100 = fs.length + 1 := by
        simp [htl]
      rw [hidx, hidx2]
      have hassoc : (tl ++ [a]) ++ fs = tl ++ a :: fs := by
        simp
      rw [hassoc]
      have hcons : ((hd :: tl) ++ a :: fs) = hd :: (tl ++ a :: fs) := by
        simp
      rw [hcons, List.drop_succ_cons]
    · have hlt : b.length < 100 := Nat.lt_of_le_of_ne hb h
      have hnovf : ¬ ((b ++ [a]).length > 100) := by
        simp
        omega
      have hpb : pushBounded b a = b ++ [a] := by
        simp [pushBounded] at hnovf ⊢
        omega
      rw [hpb, ih (b ++ [a]) (by simp; omega)]
      have hidx : (b ++ [a]).length + fs.length - 100
          = b.length + (a :: fs).length - 100 := by
        simp
        omega
      rw [hidx]
      have hassoc : (b ++ [a]) ++ fs = b ++ a :: fs := by
        simp
      rw [hassoc]

/-- C4: for any sequence of `sendAudio` calls made while the connection
is down (fresh session, socket never opened), the pending buffer holds
the last `min(k, 100)` of the `k` frames sent, and on connection
(`open` handler, which flushes) exactly those frames are delivered to
the websocket in their original order; the buffer is left empty. -/
theorem sendAudio_offline_then_flush_ordered {α : Type} (frames : List α) :
    (onWsOpen (List.foldl sendAudio (initialAudioState α) frames)).sentToWs
      = frames.drop (frames.length - 100) ∧
    (onWsOpen (List.foldl sendAudio (initialAudioState α) frames)).audioBuffer = [] ∧
    (frames.drop (frames.length - 100)).length = min frames.length 100 := by
  have hbuf : List.foldl sendAudio (initialAudioState α) frames
      = AudioState.mk true false (frames.drop (frames.length - 100)) [] := by
    have h1 := foldl_sendAudio_disconnected frames [] []
    have h2 := foldl_pushBounded_drop frames [] (by simp)
    simp only [List.nil_append, List.length_nil, Nat.zero_add] at h2
    rw [initialAudioState, h1, h2]
  rw [hbuf]
  have hlen : (frames.drop (frames.length - 100)).length = min frames.length 100 := by
    rw [List.length_drop]
    omega
  have honWs : ∀ buf : List α,
      (onWsOpen (AudioState.mk true false buf [])).sentToWs = buf ∧
      (onWsOpen (AudioState.mk true false buf [])).audioBuffer = [] := by
    intro buf
    cases buf with
    | nil => exact ⟨rfl, rfl⟩
    | cons x xs =>
      constructor
      · simp [onWsOpen, flushAudioBuffer]
      · simp [onWsOpen, flushAudioBuffer]
  exact ⟨(honWs _).1, (honWs _).2, hlen⟩

/-- Role tag of a `ConversationText` event. -/
inductive Role where
  | user
  | assistant
deriving DecidableEq, Repr

/-- Agent events received by the per-call stream session handlers
installed by `setupAgentEventHandlers` (media-stream-agent.ts lines
73-148); the payload fields the handlers read are carried. -/
inductive AgentEv where
  | welcomeEv
  | settingsApplied
  | userStartedSpeaking
  | conversationText (role : Role) (content : List Char)
  | agentThinking
  | agentStartedSpeaking
  | audioEv (data : List Nat)
  | agentAudioDone
  | errorEv
  | closeEv
deriving DecidableEq, Repr

/-- Observable state of one `VoiceAgentStreamSession` under
`setupAgentEventHandlers`: the outbound-audio accumulation buffer, the
frames forwarded to the transport (`sendAudioToTwilio`), and the
callback invocations. -/
structure StreamState where
  audioBuffer : List (List Nat)
  sentToTransport : List (List Nat)
  cbTranscripts : List (List Char)
  cbInterims : List (List Char)
  cbSpeechStarts : Nat
deriving DecidableEq, Repr

/-- Embedding of the event handlers installed by
`setupAgentEventHandlers` (media-stream-agent.ts lines 73-148):
`user_started_speaking` invokes the speech-start callback and clears
the accumulation buffer; `conversation_text` with role `user` invokes
the partial-transcript and transcript callbacks; `agent_started_speaking`
clears the buffer; `audio` ignores empty frames and otherwise appends
the frame to the buffer and forwards it to the transport immediately;
all other events only log. -/
def agentStreamStep (s : StreamState) (e : AgentEv) : StreamState :=
  match e with
  | AgentEv.welcomeEv => s
  | AgentEv.settingsApplied => s
  | AgentEv.userStartedSpeaking =>
    { s with cbSpeechStarts := s.cbSpeechStarts + 1, audioBuffer := [] }
  | AgentEv.conversationText role content =>
    let s1 := if role = Role.user
      then { s with cbInterims := s.cbInterims ++ [content] } else s
    if role = Role.user
      then { s1 with cbTranscripts := s1.cbTranscripts ++ [content] } else s1
  | AgentEv.agentThinking => s
  | AgentEv.agentStartedSpeaking => { s with audioBuffer := [] }
  | AgentEv.audioEv data =>
    if data.length = 0 then s
    else { s with audioBuffer := s.audioBuffer ++ [data],
                  sentToTransport := s.sentToTransport ++ [data] }
  | AgentEv.agentAudioDone => s
  | AgentEv.errorEv => s
  | AgentEv.closeEv => s

/-- C7 counterexample: mid-playback (two frames already accumulated and
forwarded), a `UserStartedSpeaking` event clears the accumulation
buffer, but a frame of the interrupted response arriving right after it
is still forwarded to the transport — the `audio` handler forwards
every non-empty frame immediately, so "no further audio frames are
forwarded after that event" is false. -/
theorem barge_in_stops_forwarding_counterexample :
    (agentStreamStep (StreamState.mk [[1], [2]] [[1], [2]] [] [] 0)
        AgentEv.userStartedSpeaking).audioBuffer = [] ∧
    (agentStreamStep
        (agentStreamStep (StreamState.mk [[1], [2]] [[1], [2]] [] [] 0)
          AgentEv.userStartedSpeaking)
        (AgentEv.audioEv [3])).sentToTransport = [[1], [2], [3]] := by
  decide

/-- C7 amended: a `UserStartedSpeaking` event clears the session's
outbound-audio accumulation buffer, but it does not stop forwarding:
any non-empty audio frame arriving after the event is still appended to
the transport stream immediately (the buffer is only used for byte
accounting, not as the forwarding path). -/
theorem barge_in_clears_buffer_but_forwarding_continues
    (s : StreamState) (d : List Nat) (hd : d ≠ []) :
    (agentStreamStep s AgentEv.userStartedSpeaking).audioBuffer = [] ∧
    (agentStreamStep (agentStreamStep s AgentEv.userStartedSpeaking)
        (AgentEv.audioEv d)).sentToTransport
      = (agentStreamStep s AgentEv.userStartedSpeaking).sentToTransport ++ [d] := by
  have hlen : ¬ (d.length = 0) := by
    simpa using hd
  exact ⟨rfl, by simp [agentStreamStep, hlen]⟩

/-- Witness for the amended C7 at a concrete input. -/
theorem barge_in_clears_buffer_but_forwarding_continues_witness :
    (agentStreamStep (StreamState.mk [] [] [] [] 0)
        AgentEv.userStartedSpeaking).audioBuffer = [] ∧
    (agentStreamStep (agentStreamStep (StreamState.mk [] [] [] [] 0)
        AgentEv.userStartedSpeaking) (AgentEv.audioEv [3])).sentToTransport
      = (agentStreamStep (StreamState.mk [] [] [] [] 0)
          AgentEv.userStartedSpeaking).sentToTransport ++ [[3]] :=
  barge_in_clears_buffer_but_forwarding_continues (StreamState.mk [] [] [] [] 0)
    [3] (by decide)

/-- Console warnings emitted by the unimplemented agent methods. -/
inductive AgentWarn where
  | injectTextNotImplemented
  | speakNotImplemented
deriving DecidableEq, Repr

/-- How an async provider method completes from the caller's
perspective: the promise resolves, or rejects with the named error. -/
inductive CallResult where
  | resolvedOk
  | rejectedNotSupported
  | rejectedNotConnected
deriving DecidableEq, Repr

/-- Embedding of `DeepgramVoiceAgentProvider.injectText`
(deepgram-agent.ts lines 257-264): the body logs a console warning and
returns, so the promise resolves successfully. -/
def injectText (text : List Char) (role : Role) : List AgentWarn × CallResult :=
  ([AgentWarn.injectTextNotImplemented], CallResult.resolvedOk)

/-- Embedding of `DeepgramVoiceAgentProvider.speak` (deepgram-agent.ts
lines 266-271): the body logs a console warning and returns, so the
promise resolves successfully. -/
def speak (text : List Char) : List AgentWarn × CallResult :=
  ([AgentWarn.speakNotImplemented], CallResult.resolvedOk)

/-- C8 counterexample: `injectText` and `speak` both complete as
successes from the caller's perspective — no `NotSupportedError` (nor
any other rejection) is reported; the caller observes a plain resolved
promise. -/
theorem injectText_speak_report_notSupported_counterexample :
    (injectText ['h', 'i'] Role.user).2 = CallResult.resolvedOk ∧
    (injectText ['h', 'i'] Role.user).2 ≠ CallResult.rejectedNotSupported ∧
    (speak ['h', 'i']).2 = CallResult.resolvedOk ∧
    (speak ['h', 'i']).2 ≠ CallResult.rejectedNotSupported := by
  decide

/-- C8 amended: for every text and role input, `injectText` and `speak`
log a not-implemented console warning and complete as successes; no
`NotSupportedError` is reported to the caller. -/
theorem injectText_speak_warn_and_resolve (text : List Char) (role : Role) :
    (injectText text role).2 = CallResult.resolvedOk ∧
    (injectText text role).1 = [AgentWarn.injectTextNotImplemented] ∧
    (speak text).2 = CallResult.resolvedOk ∧
    (speak text).1 = [AgentWarn.speakNotImplemented] :=
  ⟨rfl, rfl, rfl, rfl⟩
